import Mathlib

/-!
Shallow embedding of the two FlexGet input plugins under verification:
`soup_parse.py` (class `SoupParse`) and `torznab.py` (class `Torznab`).
Each definition mirrors one function or code fragment of the Python source;
line numbers in the doc comments refer to the Python files.
-/

/-- An entry record: a mapping from field name to extracted string value,
modelled as an association list (`flexget.entry.Entry` fields). -/
abbrev Entry := List (String × String)

/-- Membership of a field name in an entry (Python `key in entry`). -/
def entryHasField (e : Entry) (k : String) : Bool :=
  e.any (fun kv => kv.1 == k)

/-- A compiled regular expression, abstracted as its `search` method: given a
string it returns `some m` where `m` is `match.group(0)` of the first match,
or `none` when the pattern does not match anywhere in the string. -/
abbrev Regexp := String → Option String

/-- Models `re.compile('.*').search`: `.*` matches at position 0 and greedily
takes every character up to (not including) the first newline, so it always
matches and `group(0)` is the initial newline-free segment of the string. -/
def wildcardRegexp : Regexp :=
  fun s => some (String.mk (s.data.takeWhile (fun c => c != '\n')))

/-- The per-key configuration fragment of `soup_parse` that the verified
claims depend on: the optional `required` flag and the optional `regexps`
list (kept in already-compiled form, since regex compilation itself is
delegated to Python's `re` module). The `section`, `location` and
`encoding` options are resolved separately. -/
structure FieldRule where
  required : Option Bool := none
  regexps : Option (List Regexp) := none

/-- Models `soup_parse.py` lines 338-343: the regex list used for a key is
the configured `regexps` when present, else the single wildcard `.*`. -/
def field_regexps (rule : FieldRule) : List Regexp :=
  match rule.regexps with
  | some rs => rs
  | none => [wildcardRegexp]

/-- Models `soup_parse.py` lines 344-345 over a whole `keys` config: each key
whose rule has `required: true` is appended to the instance list
`self.required` (which is NOT reset between calls; `__init__` line 214 sets
it to `[]` once, when the plugin instance is created). -/
def update_required (required : List String) (keys : List (String × FieldRule)) :
    List String :=
  keys.foldl
    (fun acc kv => if kv.2.required = some true then acc ++ [kv.1] else acc)
    required

/-- Modelled from the spec: `Entry.isvalid` of the FlexGet host framework is
not part of src/; the spec states that the host-level mandatory fields are
`title` and `url`, so an entry is valid when both are present. -/
def entry_isvalid (e : Entry) : Bool :=
  entryHasField e "title" && entryHasField e "url"

/-- Models `SoupParse.isvalid` (lines 234-239): every key of the instance's
`required` list must be present in the entry, then the host's
`entry.isvalid()` check is applied. -/
def isvalid (required : List String) (e : Entry) : Bool :=
  required.all (fun k => entryHasField e k) && entry_isvalid e

/-- Models lines 424-425 of `on_task_input`: each section's built record is
appended to the output exactly when `self.isvalid(entry)` holds. -/
def emit_entries (required : List String) (records : List Entry) : List Entry :=
  records.filter (fun e => isvalid required e)

/-- Models the validation-relevant state threading of one `on_task_input`
call: lines 344-345 append this config's required keys to the instance list
`self.required`, then lines 424-425 filter the records built for the
sections with the accumulated list. Returns the new instance state together
with the returned entries. Record building itself (fields resolution) is
abstracted as the `records` input. -/
def on_task_input_validation (required : List String)
    (keys : List (String × FieldRule)) (records : List Entry) :
    List String × List Entry :=
  let required := update_required required keys
  (required, emit_entries required records)

/-- Python `str.strip()`: remove leading and trailing whitespace. -/
def pyStrip (s : String) : String :=
  String.mk
    (((s.data.dropWhile Char.isWhitespace).reverse.dropWhile
      Char.isWhitespace).reverse)

/-- Python `str.startswith` on explicit character lists. -/
def startsWithList : List Char → List Char → Bool
  | _, [] => true
  | [], _ :: _ => false
  | c :: cs, p :: ps => c == p && startsWithList cs ps

/-- Python `href.startswith(pre)`. -/
def pyStartswith (s pre : String) : Bool :=
  startsWithList s.data pre.data

/-- Models `soup_parse.py` lines 380-382 (literal `url` location): take the
tag's `href`, and when the guard
`not new_section.startswith('http://') or not new_section.startswith('https://')`
holds, replace it by `urllib.parse.urljoin(url, new_section)`. The join
itself is host-library code, abstracted as the `urljoin` argument. -/
def resolve_url_literal (urljoin : String → String → String)
    (url href : String) : String :=
  let new_section := href
  if !pyStartswith new_section "http://" || !pyStartswith new_section "https://" then
    urljoin url new_section
  else
    new_section

/-- Models `soup_parse.py` lines 386-398 for the object location form
`{"text": N}`: `loc = N - 1`, `new_section = ''`; `contents_list` is the list
of all text nodes under the tag (`tag.find_all(text=True)`, document order);
when it is nonempty it is filtered to the non-empty-after-strip nodes, and
when the index is in range line 394 rebinds `new_section_list` (not
`new_section`) to the selected node. The value the caller goes on to use is
`new_section`. -/
def resolve_text_indexed (contents_list : List String) (n : Nat) : String :=
  let loc := n - 1
  let new_section := ""
  if contents_list ≠ [] then
    let new_section_list := contents_list.filter (fun t => pyStrip t ≠ "")
    if new_section_list.length > loc then
      let new_section_list := [new_section_list.getD loc ""]
      let _ := new_section_list
      new_section
    else
      new_section
  else
    new_section

/-- Models `soup_parse.py` lines 415-423: walk the key's compiled regex list
in order; on each iteration, an empty `new_section` breaks out with no value
set; otherwise the first pattern whose `search` succeeds sets the value to
`group(0)` and breaks. `none` means the field stays unset. -/
def apply_regexps : List Regexp → String → Option String
  | [], _ => none
  | r :: rest, s =>
    if s = "" then none
    else
      match r s with
      | some m => some m
      | none => apply_regexps rest s

/-- One scope-limiter rule of the configuration (schema `scope_limiter`):
either a bare element-name string, or the structured object. The schema
defaults (`start` 1, `end` 31415) are applied before the rule reaches
`_tag_limiter`, so `start` and `end_` are always present here. -/
inductive ScopeLimit where
  | bare (name : String)
  | structured (element_name attribute_name attribute_value : Option String)
      (start : Nat) (end_ : Nat)

/-- A positional bound as `_tag_limiter` stores it: the Python source keeps
the bounds as strings that are later `eval`-ed with `new_tag_list` in scope,
so a bound is either a numeral string (`val`) or the literal string
`"len(new_tag_list)"` (`lenNewTagList`). -/
inductive Bound where
  | val (n : Nat)
  | lenNewTagList
deriving Inhabited, DecidableEq, Repr

/-- `eval` of a stored bound string with `new_tag_list` of length `n` in
scope (`soup_parse.py` lines 249-269). -/
def evalBound (b : Bound) (n : Nat) : Nat :=
  match b with
  | .val k => k
  | .lenNewTagList => n

/-- One compiled search term, the 4-element list
`[el_name, att_dict, start, end]` built by `_tag_limiter`. The source
compiles `el_name` to `re.compile("^" ++ body ++ "$")` and each attribute
value to `re.compile("^" ++ body ++ "$")`; here we record the pattern
bodies, the anchoring being uniform. An attribute entry's key is the
configured `attribute_name` (`none` models Python's `None` key). -/
structure CompiledTerm where
  el_name : String
  att_dict : List (Option String × String)
  start : Bound
  end_ : Bound
deriving Inhabited, DecidableEq, Repr

/-- Matching of a compiled anchored name pattern `^body$` against a tag
name, for bodies that are literal strings without regex metacharacters (the
only shape the verified claims instantiate): the pattern matches exactly the
string `body`. -/
def anchoredLitMatches (body : String) (s : String) : Bool :=
  s == body

/-- Models `SoupParse._tag_limiter` (lines 282-309) on one rule. A bare
string `limit` yields `re.compile(f"^{limit}$")`, no attribute constraint,
start `"0"` and end `"len(new_tag_list)"`. For the structured form,
`el_name = limit.get('element_name')` is `None` when absent and line 307
interpolates it into `f"^{el_name}$"`, so the compiled body is the text
`"None"` in that case; a missing `attribute_value` (with an
`attribute_name` given) defaults to `".*"`; `start` is the declared start
minus 1; the declared end is kept unless it is the schema default sentinel
31415, which compiles to `"len(new_tag_list)"`. -/
def tag_limiter_one (limit : ScopeLimit) : CompiledTerm :=
  match limit with
  | .bare name =>
    { el_name := name
      att_dict := []
      start := Bound.val 0
      end_ := Bound.lenNewTagList }
  | .structured el_name att_name att_val start end_ =>
    let att_dict : List (Option String × String) :=
      if att_name.isNone && att_val.isNone then
        []
      else
        let att_val := att_val.getD ".*"
        [(att_name, att_val)]
    let end_b : Bound :=
      if end_ = 31415 then Bound.lenNewTagList else Bound.val end_
    { el_name := el_name.getD "None"
      att_dict := att_dict
      start := Bound.val (start - 1)
      end_ := end_b }

/-- Models `SoupParse._tag_limiter` over the whole `scope_limits` list: one
compiled term is appended per rule, in order. -/
def tag_limiter (scope_limits : List ScopeLimit) : List CompiledTerm :=
  scope_limits.map tag_limiter_one

/-- Models `SoupParse._get_master_tag_list` (lines 241-280), generic in the
tag type. `findAll parent el_name att_dict` abstracts the BeautifulSoup
query `parent.find_all(el_name, att_dict)`, returning the matching
descendant elements in document order. At a non-final depth the matches of
each parent are sliced by the clamped bounds of lines 249-269 and
accumulated into the next level; at the final depth every match of every
parent is appended to the returned master list unsliced. -/
def get_master_tag_list {Tag : Type}
    (findAll : Tag → String → List (Option String × String) → List Tag)
    (element_tag_list : List (List Tag)) (scope_num : Nat)
    (tag_search_terms : List CompiledTerm) : List Tag :=
  if _h : scope_num + 1 < tag_search_terms.length then
    let term := tag_search_terms.getD scope_num default
    let temp_list :=
      (element_tag_list.getD scope_num []).foldl
        (fun acc parent =>
          let new_tag_list := findAll parent term.el_name term.att_dict
          let n := new_tag_list.length
          let start : Bound :=
            if evalBound term.start n ≥ evalBound term.end_ n ∨
                evalBound term.start n ≥ n then
              Bound.val 0
            else
              term.start
          let end_ : Bound :=
            if evalBound term.end_ n > n then Bound.val n else term.end_
          acc ++ ((new_tag_list.drop (evalBound start n)).take
            (evalBound end_ n - evalBound start n)))
        []
    get_master_tag_list findAll (element_tag_list ++ [temp_list])
      (scope_num + 1) tag_search_terms
  else
    let term := tag_search_terms.getD scope_num default
    (element_tag_list.getD scope_num []).foldl
      (fun acc parent => acc ++ findAll parent term.el_name term.att_dict)
      []
termination_by tag_search_terms.length - scope_num
decreasing_by simp_wf; omega

/-- The `searcher` values admitted by the torznab config schema
(`torznab.py` line 29). -/
inductive ConfigSearcher where
  | movie
  | tv
  | tvsearch
  | search
deriving DecidableEq, Repr

/-- The searcher kinds reaching `_setup_searcher` after the normalization of
`_setup` lines 55-56 (`'tv'` is rewritten to `'tvsearch'`). -/
inductive Kind where
  | movie
  | tvsearch
  | search
deriving DecidableEq, Repr

/-- Models `torznab.py` lines 55-56: `_setup` rewrites the configured
searcher `'tv'` into `'tvsearch'` before capability negotiation. -/
def normalize_searcher : ConfigSearcher → Kind
  | .movie => .movie
  | .tv => .tvsearch
  | .tvsearch => .tvsearch
  | .search => .search

/-- The `aliases` dict of `_setup_searcher` (lines 78-82): configured kind to
the element name used in the capability document. -/
def kind_alias : Kind → String
  | .movie => "movie-search"
  | .search => "search"
  | .tvsearch => "tv-search"

/-- The string written into `self.params['t']` when the requested kind is
selected (line 88 stores the configured `searcher` value itself). -/
def kind_param : Kind → String
  | .movie => "movie"
  | .search => "search"
  | .tvsearch => "tvsearch"

/-- The attributes of one searcher element of the parsed capability
document, restricted to the two keys `_setup_searcher` reads. -/
structure CapEntry where
  available : String
  supportedparams : String
deriving Inhabited, DecidableEq, Repr

/-- The `searchers` dict built on line 84: element name to attributes. -/
abbrev Searchers := List (String × CapEntry)

/-- Models `Torznab._check_searcher` (lines 104-108): the name must be a key
of the dict, its `available` attribute must equal `'yes'`, and its
`supportedparams` attribute must be truthy (a non-empty string). -/
def check_searcher (searchers : Searchers) (searcher : String) : Bool :=
  match searchers.lookup searcher with
  | some attrs => attrs.available == "yes" && attrs.supportedparams != ""
  | none => false

/-- Outcome of `_setup_searcher`: either the selected `params['t']` value
together with `supported_params` (the `supportedparams` attribute split on
commas), or the raised `PluginError`. -/
inductive SetupOutcome where
  | ok (t : String) (supported_params : List String)
  | pluginError
deriving DecidableEq, Repr

/-- Models `Torznab._setup_searcher` (lines 76-102): with a non-empty
searcher dict, the requested kind's alias is checked first and, when it
passes, `params['t']` is the requested kind and the supported parameters
are taken from its capability entry; otherwise, when the requested kind is
not `'search'` and the generic `'search'` entry passes the check, the run
falls back to `'search'`; in every remaining case a `PluginError` is
raised. -/
def setup_searcher (searchers : Searchers) (searcher : Kind) : SetupOutcome :=
  if searchers ≠ [] then
    if check_searcher searchers (kind_alias searcher) then
      SetupOutcome.ok (kind_param searcher)
        ((((searchers.lookup (kind_alias searcher)).getD default).supportedparams).splitOn ",")
    else if searcher ≠ Kind.search ∧ check_searcher searchers "search" = true then
      SetupOutcome.ok "search"
        ((((searchers.lookup "search").getD default).supportedparams).splitOn ",")
    else
      SetupOutcome.pluginError
  else
    SetupOutcome.pluginError

/-- Models `Torznab.search` (lines 37-40): `self._setup(task, config)` runs
capability negotiation (whose only fallible step is `_setup_searcher`;
`_setup_categories` is `pass`), after which the method returns the empty
list. A raised `PluginError` propagates as `Except.error`. `Result` is the
element type of the host's search-result entries; no value of it is ever
produced. -/
def torznab_search (Result : Type) (searchers : Searchers)
    (searcher : ConfigSearcher) : Except Unit (List Result) :=
  match setup_searcher searchers (normalize_searcher searcher) with
  | SetupOutcome.pluginError => Except.error ()
  | SetupOutcome.ok _ _ => Except.ok []

/-- An append-accumulating left fold (the shape of the Python `for` loops
that `append` into an accumulator list) is a flat map. -/
theorem foldl_append_eq_flatMap {α β : Type} (g : List β → α → List β)
    (f : α → List β) (hg : ∀ acc x, g acc x = acc ++ f x) (l : List α)
    (init : List β) :
    l.foldl g init = init ++ l.flatMap f := by
  induction l generalizing init with
  | nil => simp
  | cons x xs ih =>
    rw [List.foldl_cons, hg, ih, List.flatMap_cons, List.append_assoc]

/-- No character list starts with both `"http://"` and `"https://"` (they
disagree at index 4), so the disjunctive guard of line 381 is always true. -/
theorem startsWith_guard (l : List Char) :
    (!startsWithList l "http://".data || !startsWithList l "https://".data) = true := by
  have hd7 : "http://".data = ['h', 't', 't', 'p', ':', '/', '/'] := rfl
  have hd8 : "https://".data = ['h', 't', 't', 'p', 's', ':', '/', '/'] := rfl
  rw [hd7, hd8]
  match l with
  | [] => rfl
  | [c0] => simp [startsWithList]
  | [c0, c1] => simp [startsWithList]
  | [c0, c1, c2] => simp [startsWithList]
  | [c0, c1, c2, c3] => simp [startsWithList]
  | c0 :: c1 :: c2 :: c3 :: c4 :: rest =>
    by_cases h4 : c4 = ':'
    · subst h4
      simp [startsWithList]
    · simp [startsWithList, h4]

/-- Membership in the accumulated required list: a key is there exactly when
it was there before the call or this call's config declares it required. -/
theorem mem_update_required (init : List String)
    (keys : List (String × FieldRule)) (k : String) :
    k ∈ update_required init keys ↔
      k ∈ init ∨ ∃ kv ∈ keys, kv.1 = k ∧ kv.2.required = some true := by
  induction keys generalizing init with
  | nil => simp [update_required]
  | cons kv kvs ih =>
    simp only [update_required, List.foldl_cons] at ih ⊢
    by_cases h : kv.2.required = some true
    · rw [if_pos h, ih]
      constructor
      · rintro (hk | ⟨kv', hkv', hk, hr⟩)
        · rcases List.mem_append.mp hk with hk | hk
          · exact Or.inl hk
          · exact Or.inr ⟨kv, List.mem_cons_self kv kvs,
              (List.mem_singleton.mp hk).symm, h⟩
        · exact Or.inr ⟨kv', List.mem_cons_of_mem _ hkv', hk, hr⟩
      · rintro (hk | ⟨kv', hkv', hk, hr⟩)
        · exact Or.inl (List.mem_append.mpr (Or.inl hk))
        · rcases List.mem_cons.mp hkv' with rfl | hkv'
          · exact Or.inl (List.mem_append.mpr
              (Or.inr (List.mem_singleton.mpr hk.symm)))
          · exact Or.inr ⟨kv', hkv', hk, hr⟩
    · rw [if_neg h, ih]
      constructor
      · rintro (hk | ⟨kv', hkv', hk, hr⟩)
        · exact Or.inl hk
        · exact Or.inr ⟨kv', List.mem_cons_of_mem _ hkv', hk, hr⟩
      · rintro (hk | ⟨kv', hkv', hk, hr⟩)
        · exact Or.inl hk
        · rcases List.mem_cons.mp hkv' with rfl | hkv'
          · exact absurd hr h
          · exact Or.inr ⟨kv', hkv', hk, hr⟩

/-- C5: for the literal `url` location, the absolute-URL guard of line 381
is true for every href string, so `urljoin(url, href)` is applied to every
extracted href. -/
theorem c5_url_guard_always_joins (urljoin : String → String → String)
    (url href : String) :
    (!pyStartswith href "http://" || !pyStartswith href "https://") = true ∧
    resolve_url_literal urljoin url href = urljoin url href := by
  have h : (!pyStartswith href "http://" || !pyStartswith href "https://") = true :=
    startsWith_guard href.data
  refine ⟨h, ?_⟩
  unfold resolve_url_literal
  rw [if_pos h]

/-- C10: whenever `Torznab.search` returns (capability setup did not raise),
it returns the empty result list, for every capability document,
configuration and result type. -/
theorem c10_search_returns_empty (Result : Type) (searchers : Searchers)
    (searcher : ConfigSearcher) (r : List Result)
    (h : torznab_search Result searchers searcher = Except.ok r) : r = [] := by
  unfold torznab_search at h
  cases hs : setup_searcher searchers (normalize_searcher searcher) with
  | ok t p =>
    rw [hs] at h
    injection h with h
    exact h.symm
  | pluginError =>
    rw [hs] at h
    cases h

/-- Witness for C10 at a concrete capability document and configuration. -/
theorem c10_witness : ([] : List Nat) = [] :=
  c10_search_returns_empty Nat
    [("tv-search", { available := "yes", supportedparams := "q,season,ep" })]
    ConfigSearcher.tv [] (by rfl)

/-- C6: in the regex application loop of lines 416-423, the first pattern
of the list that matches wins and its full match (group 0) is stored,
independent of the later patterns; a non-matching head hands over to the
rest of the list; an empty resolved string means no match is attempted and
the field stays unset; if no pattern matches the field stays unset; and a
key without configured regexps gets the single always-matching wildcard. -/
theorem c6_regexp_list_semantics (r : Regexp) (rest rs : List Regexp)
    (s m : String) :
    (s ≠ "" → r s = some m → apply_regexps (r :: rest) s = some m) ∧
    (s ≠ "" → r s = none → apply_regexps (r :: rest) s = apply_regexps rest s) ∧
    (apply_regexps rs "" = none) ∧
    ((∀ p ∈ rs, p s = none) → apply_regexps rs s = none) ∧
    (field_regexps { required := none, regexps := none } = [wildcardRegexp]) ∧
    (∀ t : String, (wildcardRegexp t).isSome = true) := by
  refine ⟨?_, ?_, ?_, ?_, rfl, fun t => rfl⟩
  · intro hs hm
    simp [apply_regexps, hs, hm]
  · intro hs hm
    simp [apply_regexps, hs, hm]
  · cases rs with
    | nil => rfl
    | cons p ps => simp [apply_regexps]
  · induction rs with
    | nil => intro _; rfl
    | cons p ps ih =>
      intro h
      by_cases hs : s = ""
      · subst hs
        simp [apply_regexps]
      · have hp : p s = none := h p (List.mem_cons_self p ps)
        have hrec := ih (fun q hq => h q (List.mem_cons_of_mem _ hq))
        simp [apply_regexps, hs, hp, hrec]

/-- Witness for C6 at concrete regexps and strings. -/
theorem c6_witness :
    apply_regexps [fun t => if t = "AB" then some "A" else none,
      fun _ => some "B"] "AB" = some "A" ∧
    apply_regexps [wildcardRegexp] "" = none := by
  have h := c6_regexp_list_semantics
    (fun t => if t = "AB" then some "A" else none)
    [fun _ => some "B"] [wildcardRegexp] "AB" "A"
  exact ⟨h.1 (by decide) (by decide), h.2.2.1⟩

/-- C3: line 394 rebinds the local `new_section_list` instead of
`new_section`, so for the object location form `{"text": N}` the resolved
string is always the empty string, the regex list is never applied to the
selected text node, and the field stays unset even on in-range inputs where
the claim requires the (N-1)th non-empty text node to be matched; at the
failing input (text nodes `["hello"]`, N = 1, default wildcard regexps) the
selected node would be `"hello"` and the wildcard would match it in full,
yet the code resolves `""` and sets no value. -/
theorem c3_text_object_location_is_never_used :
    (∀ (contents_list : List String) (n : Nat),
      resolve_text_indexed contents_list n = "") ∧
    resolve_text_indexed ["hello"] 1 = "" ∧
    apply_regexps [wildcardRegexp] (resolve_text_indexed ["hello"] 1) = none ∧
    (["hello"].filter (fun t => pyStrip t ≠ "")).getD 0 "" = "hello" ∧
    wildcardRegexp "hello" = some "hello" := by
  have hall : ∀ (contents_list : List String) (n : Nat),
      resolve_text_indexed contents_list n = "" := by
    intro cl n
    unfold resolve_text_indexed
    split
    · dsimp only
      split
      · rfl
      · rfl
    · rfl
  refine ⟨hall, hall _ _, ?_, ?_, ?_⟩
  · rw [hall]
    rfl
  · decide
  · decide

/-- C4: the required-field set is NOT invocation-local. `__init__` creates
`self.required = []` once; each `on_task_input` call appends its config's
required keys (lines 344-345) and validates against the accumulated list
(line 424). Running a config A that requires `foo` and then a config B that
requires nothing makes B drop a record containing only `title` and `url`,
although B alone keeps it. -/
theorem c4_required_accumulates_across_calls :
    ((on_task_input_validation []
        [("title", { required := none, regexps := none }),
         ("url", { required := none, regexps := none })]
        [[("title", "t"), ("url", "u")]]).2 =
      [[("title", "t"), ("url", "u")]]) ∧
    ((on_task_input_validation
        ((on_task_input_validation []
          [("foo", { required := some true, regexps := none })] []).1)
        [("title", { required := none, regexps := none }),
         ("url", { required := none, regexps := none })]
        [[("title", "t"), ("url", "u")]]).2 = []) := by
  constructor
  · rfl
  · rfl

/-- Counterexample for C2: compiling the structured rule
`{attribute_name: "class", attribute_value: "media_info"}` (no
`element_name`) yields the anchored name pattern with body `"None"` —
Python's f-string interpolation of `None` — which does not match an element
named `div`; it matches only elements literally named `None`, so the
compiled name pattern is not unconstrained. -/
theorem c2_counterexample :
    ((tag_limiter [ScopeLimit.structured none (some "class")
        (some "media_info") 1 31415]).getD 0 default).el_name = "None" ∧
    anchoredLitMatches
      ((tag_limiter [ScopeLimit.structured none (some "class")
        (some "media_info") 1 31415]).getD 0 default).el_name "div" = false ∧
    anchoredLitMatches
      ((tag_limiter [ScopeLimit.structured none (some "class")
        (some "media_info") 1 31415]).getD 0 default).el_name "None" = true := by
  refine ⟨rfl, ?_, ?_⟩ <;> decide

/-- C2 (amended): the Scope-Limiter Compiler maps a bare string to the
anchored exact name pattern with no attribute constraint, start 0 and
unbounded end; a structured rule gets the anchored interpolation of
`element_name` — the literal body `"None"` when `element_name` is absent —
the attribute constraint `{attribute_name: anchored(attribute_value or
".*")}` when either attribute option is given, start `start - 1`, and the
declared end unless the sentinel 31415 was supplied, in which case the end
is unbounded. -/
theorem c2_tag_limiter_characterization :
    (∀ name : String,
      tag_limiter [ScopeLimit.bare name] =
        [{ el_name := name, att_dict := [], start := Bound.val 0,
           end_ := Bound.lenNewTagList }]) ∧
    (∀ (en an av : Option String) (st e : Nat),
      tag_limiter [ScopeLimit.structured en an av st e] =
        [{ el_name := en.getD "None"
           att_dict :=
             if an.isNone && av.isNone then [] else [(an, av.getD ".*")]
           start := Bound.val (st - 1)
           end_ := if e = 31415 then Bound.lenNewTagList else Bound.val e }]) := by
  constructor
  · intro name
    rfl
  · intro en an av st e
    rfl

/-- C7: a section's record is in the returned list exactly when every field
declared `required: true` in this invocation's config is present and the
host-mandatory `title` and `url` fields are present; failing records are
simply absent (the filter keeps all and only the valid records, so other
sections are unaffected). Stated for a fresh plugin instance
(`self.required = []` from `__init__`). -/
theorem c7_record_kept_iff_required_present (keys : List (String × FieldRule))
    (records : List Entry) (e : Entry) :
    e ∈ emit_entries (update_required [] keys) records ↔
      e ∈ records ∧
      (∀ kv ∈ keys, kv.2.required = some true → entryHasField e kv.1 = true) ∧
      entryHasField e "title" = true ∧ entryHasField e "url" = true := by
  unfold emit_entries
  simp only [List.mem_filter, isvalid, entry_isvalid, Bool.and_eq_true,
    List.all_eq_true]
  constructor
  · rintro ⟨hmem, hall, htitle, hurl⟩
    refine ⟨hmem, ?_, htitle, hurl⟩
    intro kv hkv hreq
    exact hall kv.1 ((mem_update_required [] keys kv.1).mpr
      (Or.inr ⟨kv, hkv, rfl, hreq⟩))
  · rintro ⟨hmem, hall, htitle, hurl⟩
    refine ⟨hmem, ?_, htitle, hurl⟩
    intro k hk
    rcases (mem_update_required [] keys k).mp hk with hk' | ⟨kv, hkv, rfl, hreq⟩
    · exact absurd hk' (List.not_mem_nil k)
    · exact hall kv hkv hreq

/-- Witness for C7 at a concrete config and record list. -/
theorem c7_witness :
    [("title", "t"), ("url", "u"), ("foo", "x")] ∈
      emit_entries
        (update_required []
          [("foo", { required := some true, regexps := none })])
        [[("title", "t"), ("url", "u"), ("foo", "x")]] :=
  (c7_record_kept_iff_required_present
    [("foo", { required := some true, regexps := none })]
    [[("title", "t"), ("url", "u"), ("foo", "x")]]
    [("title", "t"), ("url", "u"), ("foo", "x")]).mpr (by decide)

/-- C9: `_setup_searcher` selects the requested kind when its alias passes
the capability check (available with supported parameters); otherwise it
falls back to the generic `search` searcher when the requested kind is not
`search` and `search` passes the check; and it raises `PluginError` exactly
when neither the requested kind's alias nor `search` passes the check. -/
theorem c9_searcher_selection (searchers : Searchers) (searcher : Kind) :
    (check_searcher searchers (kind_alias searcher) = true →
      setup_searcher searchers searcher =
        SetupOutcome.ok (kind_param searcher)
          ((((searchers.lookup (kind_alias searcher)).getD
            default).supportedparams).splitOn ",")) ∧
    (check_searcher searchers (kind_alias searcher) = false →
      searcher ≠ Kind.search →
      check_searcher searchers "search" = true →
      setup_searcher searchers searcher =
        SetupOutcome.ok "search"
          ((((searchers.lookup "search").getD
            default).supportedparams).splitOn ",")) ∧
    (setup_searcher searchers searcher = SetupOutcome.pluginError ↔
      check_searcher searchers (kind_alias searcher) = false ∧
      check_searcher searchers "search" = false) := by
  by_cases hne : searchers = []
  · subst hne
    refine ⟨?_, ?_, ?_⟩
    · intro h
      simp [check_searcher, List.lookup_nil] at h
    · intro _ _ h2
      simp [check_searcher, List.lookup_nil] at h2
    · constructor
      · intro _
        exact ⟨rfl, rfl⟩
      · intro _
        rfl
  · refine ⟨?_, ?_, ?_⟩
    · intro h
      unfold setup_searcher
      rw [if_pos hne, if_pos h]
    · intro h1 h2 h3
      unfold setup_searcher
      rw [if_pos hne, if_neg (by simp [h1]), if_pos ⟨h2, h3⟩]
    · constructor
      · intro h
        unfold setup_searcher at h
        rw [if_pos hne] at h
        by_cases h1 : check_searcher searchers (kind_alias searcher) = true
        · rw [if_pos h1] at h
          cases h
        · have h1' : check_searcher searchers (kind_alias searcher) = false := by
            simpa using h1
          rw [if_neg h1] at h
          refine ⟨h1', ?_⟩
          by_cases h2 : check_searcher searchers "search" = true
          · by_cases h3 : searcher = Kind.search
            · subst h3
              rw [show kind_alias Kind.search = "search" from rfl] at h1'
              rw [h1'] at h2
              cases h2
            · rw [if_pos ⟨h3, h2⟩] at h
              cases h
          · simpa using h2
      · rintro ⟨h1, h2⟩
        unfold setup_searcher
        rw [if_pos hne, if_neg (by simp [h1]),
          if_neg (by rintro ⟨_, hc⟩; rw [h2] at hc; cases hc)]

/-- Witness for C9: requested kind selected when advertised; fallback to
`search` when not; `PluginError` when neither passes the check. -/
theorem c9_witness :
    (setup_searcher
        [("tv-search", { available := "yes", supportedparams := "q,ep" })]
        Kind.tvsearch =
      SetupOutcome.ok "tvsearch"
        (((((([("tv-search",
            { available := "yes", supportedparams := "q,ep" })] :
            Searchers).lookup
            "tv-search")).getD default).supportedparams).splitOn ",")) ∧
    (setup_searcher [("search", { available := "yes", supportedparams := "q" })]
        Kind.movie =
      SetupOutcome.ok "search"
        (((((([("search",
            { available := "yes", supportedparams := "q" })] :
            Searchers).lookup
            "search")).getD default).supportedparams).splitOn ",")) ∧
    (setup_searcher
        [("tv-search", { available := "no", supportedparams := "q" })]
        Kind.tvsearch = SetupOutcome.pluginError) :=
  ⟨(c9_searcher_selection _ Kind.tvsearch).1 (by decide),
   (c9_searcher_selection _ Kind.movie).2.1 (by decide) (by decide) (by decide),
   (c9_searcher_selection _ Kind.tvsearch).2.2.mpr ⟨by decide, by decide⟩⟩

/-- C8: at the final depth no slicing is applied: the returned master list
is the concatenation, over the parents accumulated for the final depth in
order, of all matches of the final search term under each parent (a flat
map of the `find_all` query). -/
theorem c8_final_depth_flattens {Tag : Type}
    (findAll : Tag → String → List (Option String × String) → List Tag)
    (element_tag_list : List (List Tag)) (scope_num : Nat)
    (terms : List CompiledTerm) (h : scope_num + 1 = terms.length) :
    get_master_tag_list findAll element_tag_list scope_num terms =
      (element_tag_list.getD scope_num []).flatMap
        (fun parent =>
          findAll parent (terms.getD scope_num default).el_name
            (terms.getD scope_num default).att_dict) := by
  rw [get_master_tag_list, dif_neg (by omega)]
  dsimp only
  rw [foldl_append_eq_flatMap _
    (fun parent =>
      findAll parent (terms.getD scope_num default).el_name
        (terms.getD scope_num default).att_dict)
    (fun acc x => rfl)]
  simp

/-- Witness for C8 at a concrete two-level search: the final depth
concatenates the matches of both parents with no slicing. -/
theorem c8_witness :
    get_master_tag_list (fun (t : Nat) _ _ => [t + 1, t + 2]) [[0], [1, 2]] 1
      (tag_limiter [ScopeLimit.bare "a", ScopeLimit.bare "b"]) =
      [2, 3, 3, 4] :=
  c8_final_depth_flattens _ _ _ _ (by decide)

/-- C1: at a non-final depth, each parent node's match list is sliced with
the clamped bounds of lines 249-269 — the effective start is 0 when the
declared start is at least the declared end or at least the actual match
count, and the effective end is the actual match count when the declared
end exceeds it — and the slices are accumulated, in parent order, as the
node set of the next depth. -/
theorem c1_nonfinal_clamping {Tag : Type}
    (findAll : Tag → String → List (Option String × String) → List Tag)
    (element_tag_list : List (List Tag)) (scope_num : Nat)
    (terms : List CompiledTerm) (h : scope_num + 1 < terms.length) :
    get_master_tag_list findAll element_tag_list scope_num terms =
      get_master_tag_list findAll
        (element_tag_list ++
          [(element_tag_list.getD scope_num []).flatMap (fun parent =>
            let new_tag_list :=
              findAll parent (terms.getD scope_num default).el_name
                (terms.getD scope_num default).att_dict
            let n := new_tag_list.length
            let s := evalBound (terms.getD scope_num default).start n
            let e := evalBound (terms.getD scope_num default).end_ n
            let effective_start := if s ≥ e ∨ s ≥ n then 0 else s
            let effective_end := if e > n then n else e
            (new_tag_list.drop effective_start).take
              (effective_end - effective_start))])
        (scope_num + 1) terms := by
  rw [get_master_tag_list, dif_pos h]
  dsimp only
  refine congrArg
    (fun L => get_master_tag_list findAll L (scope_num + 1) terms) ?_
  refine congrArg (fun t => element_tag_list ++ [t]) ?_
  rw [foldl_append_eq_flatMap _
    (fun parent =>
      let new_tag_list :=
        findAll parent (terms.getD scope_num default).el_name
          (terms.getD scope_num default).att_dict
      let n := new_tag_list.length
      let s := evalBound (terms.getD scope_num default).start n
      let e := evalBound (terms.getD scope_num default).end_ n
      let effective_start := if s ≥ e ∨ s ≥ n then 0 else s
      let effective_end := if e > n then n else e
      (new_tag_list.drop effective_start).take
        (effective_end - effective_start))
    (by intro acc x; dsimp only; split_ifs <;> rfl)]
  simp

/-- Witness for C1 at a concrete non-final depth: the declared slice 2..end
of the two matches under parent 0 keeps only the second match. -/
theorem c1_witness :
    get_master_tag_list (fun (t : Nat) _ _ => [t + 1, t + 2]) [[0]] 0
      (tag_limiter [ScopeLimit.structured (some "a") none none 2 31415,
        ScopeLimit.bare "b"]) =
      get_master_tag_list (fun (t : Nat) _ _ => [t + 1, t + 2]) [[0], [2]] 1
        (tag_limiter [ScopeLimit.structured (some "a") none none 2 31415,
          ScopeLimit.bare "b"]) :=
  c1_nonfinal_clamping _ _ _ _ (by decide)
